import Mathlib

/-!
Shallow embedding of the TrueFundVite route layer (Express handlers over a
supabase-style data store).  Each request handler from the routes module is
translated into a pure Lean function on an explicit store state `DB`;
store failures are injected through explicit parameters (an `Option String`
for an operation that can fail with an error message, a `Bool` flag for an
operation whose result the handler ignores).  The identity provider
(`supabase.auth.getUser`) is abstracted as a function from token to
optional user id.
-/

set_option maxHeartbeats 1000000

/-- `users` table row: identity record with the NGO-verification flag. -/
structure User where
  id : Nat
  is_ngo : Bool
deriving Repr, DecidableEq

/-- `campaigns` table row. -/
structure Campaign where
  id : Nat
  title : String
  created_by : Nat
  unique_code : String
  collected_amount : Int
  verified : Bool
  created_at : Nat
deriving Repr, DecidableEq

/-- `donations` table row. -/
structure Donation where
  campaign_id : Nat
  amount : Int
  tip_amount : Int
  donor_name : Option String
  donor_id : Option Nat
  created_at : Nat
deriving Repr, DecidableEq

/-- `reviews` table row. -/
structure Review where
  id : Nat
  rating : Nat
  comment : String
  created_at : Nat
deriving Repr, DecidableEq

/-- `ngo_verifications` table row. -/
structure NgoVerification where
  id : Nat
  user_id : Nat
  org_name : String
  verified : Bool
  requested_at : Nat
deriving Repr, DecidableEq

/-- The backing data store: one list per table. -/
structure DB where
  users : List User
  campaigns : List Campaign
  donations : List Donation
  reviews : List Review
  ngo_verifications : List NgoVerification
deriving Repr, DecidableEq

/-- An HTTP response as the handlers produce it: either `res.json(payload)`
(status 200) or `res.status(s).json(\x7berror: msg\x7d)`. -/
inductive HResp (α : Type) where
  | ok : α → HResp α
  | err : Nat → String → HResp α
deriving Repr, DecidableEq

/-- Drop the first occurrence of `pat` from a character list (semantics of
JavaScript `String.prototype.replace` with a string pattern and an empty
replacement: only the first match is removed). -/
def replaceFirstOcc (pat : List Char) : List Char → List Char
  | [] => []
  | c :: rest =>
    if pat.isPrefixOf (c :: rest) then List.drop pat.length (c :: rest)
    else c :: replaceFirstOcc pat rest

/-- The pattern `'Bearer '`. -/
def bearerMarker : List Char := ("Bearer ").toList

/-- `authHeader.replace('Bearer ', '')`. -/
def bearerToken (h : String) : String :=
  String.mk (replaceFirstOcc bearerMarker h.toList)

/-- The identity provider: `supabase.auth.getUser(token)` abstracted to the
user id it resolves, `none` when it errors or yields no user. -/
def AuthApi : Type := String → Option Nat

/-- The character set of the campaign code generator:
`'ABCDEFGHIJKLMNOPQRSTUVWXYZ0123456789'`. -/
def campaignCodeChars : List Char :=
  ("ABCDEFGHIJKLMNOPQRSTUVWXYZ0123456789").toList

/-- `generateUniqueCampaignCode`: starts from `'TF-'` and appends six
characters `chars.charAt(Math.floor(Math.random() * chars.length))`;
the six random draws are passed in as `r : Fin 6 → Fin 36`. -/
def generateUniqueCampaignCode (r : Fin 6 → Fin 36) : String :=
  ("TF-") ++ String.mk (List.ofFn (fun i => campaignCodeChars.getD (r i).val 'A'))

/-- Error message bodies used verbatim by the handlers. -/
def unauthorizedMsg : String := "Unauthorized"

/-- `'Campaign not found'`, returned by `GET /api/campaigns/:id` whenever the
single-row select reports an error of any kind. -/
def campaignNotFoundMsg : String := "Campaign not found"

/-- `'User not found'`, returned by `GET /api/auth/user` on any store error. -/
def userNotFoundMsg : String := "User not found"

/-- The store error produced by `.single()` when the query matched no row. -/
def singleRowErrMsg : String := "JSON object requested, multiple (or no) rows returned"

/-- `.order('created_at', \x7b ascending: false \x7d)` on campaigns. -/
def sortCampaignsDesc (l : List Campaign) : List Campaign :=
  l.mergeSort (fun a b => decide (b.created_at ≤ a.created_at))

/-- `.order('created_at', \x7b ascending: false \x7d)` on donations. -/
def sortDonationsDesc (l : List Donation) : List Donation :=
  l.mergeSort (fun a b => decide (b.created_at ≤ a.created_at))

/-- `.order('created_at', \x7b ascending: false \x7d)` on reviews. -/
def sortReviewsDesc (l : List Review) : List Review :=
  l.mergeSort (fun a b => decide (b.created_at ≤ a.created_at))

/-- `GET /api/auth/user`: 401 without a resolvable bearer token, then a
single-row select of the user record; any select error becomes a 404. -/
def getAuthUser (auth : AuthApi) (serr : Option String) (ah : Option String) (db : DB) :
    HResp User × DB :=
  match ah with
  | none => (HResp.err 401 unauthorizedMsg, db)
  | some h =>
    match auth (bearerToken h) with
    | none => (HResp.err 401 unauthorizedMsg, db)
    | some uid =>
      match serr with
      | some _ => (HResp.err 404 userNotFoundMsg, db)
      | none =>
        match db.users.find? (fun u => u.id == uid) with
        | none => (HResp.err 404 userNotFoundMsg, db)
        | some u => (HResp.ok u, db)

/-- `GET /api/campaigns`: list all campaigns newest first; a store error is
surfaced as a 500 with the store message. -/
def getCampaigns (serr : Option String) (db : DB) : HResp (List Campaign) × DB :=
  match serr with
  | some m => (HResp.err 500 m, db)
  | none => (HResp.ok (sortCampaignsDesc db.campaigns), db)

/-- `GET /api/campaigns/:id`: single-row select by id; the handler maps ANY
error — store failure or missing row alike — to a 404 `'Campaign not found'`. -/
def getCampaignById (serr : Option String) (cid : Nat) (db : DB) : HResp Campaign × DB :=
  match serr with
  | some _ => (HResp.err 404 campaignNotFoundMsg, db)
  | none =>
    match db.campaigns.find? (fun c => c.id == cid) with
    | none => (HResp.err 404 campaignNotFoundMsg, db)
    | some c => (HResp.ok c, db)

/-- `GET /api/campaigns/my`: 401 without a resolvable token, else the
caller's campaigns newest first; store errors become 500s. -/
def getCampaignsMy (auth : AuthApi) (serr : Option String) (ah : Option String) (db : DB) :
    HResp (List Campaign) × DB :=
  match ah with
  | none => (HResp.err 401 unauthorizedMsg, db)
  | some h =>
    match auth (bearerToken h) with
    | none => (HResp.err 401 unauthorizedMsg, db)
    | some uid =>
      match serr with
      | some m => (HResp.err 500 m, db)
      | none =>
        (HResp.ok (sortCampaignsDesc (db.campaigns.filter (fun c => c.created_by == uid))), db)

/-- Request body of `POST /api/campaigns` (the fields the handler reads). -/
structure CampaignReqBody where
  title : String
  cause : Option String
  hospitalEmail : Option String
  isTemporary : Bool
deriving Repr, DecidableEq

/-- `POST /api/campaigns`: 401 without a resolvable token; otherwise insert a
campaign row built from the body plus `created_by` and a generated
`unique_code`; the store assigns `newId`/`now` and defaults the counters. -/
def postCampaigns (auth : AuthApi) (serr : Option String) (r : Fin 6 → Fin 36)
    (newId : Nat) (now : Nat) (ah : Option String) (b : CampaignReqBody) (db : DB) :
    HResp Campaign × DB :=
  match ah with
  | none => (HResp.err 401 unauthorizedMsg, db)
  | some h =>
    match auth (bearerToken h) with
    | none => (HResp.err 401 unauthorizedMsg, db)
    | some uid =>
      match serr with
      | some m => (HResp.err 500 m, db)
      | none =>
        let row : Campaign := {
          id := newId
          title := b.title
          created_by := uid
          unique_code := generateUniqueCampaignCode r
          collected_amount := 0
          verified := false
          created_at := now }
        (HResp.ok row, { db with campaigns := db.campaigns ++ [row] })

/-- `GET /api/donations/my`: 401 without a resolvable token, else the
caller's donations newest first; store errors become 500s. -/
def getDonationsMy (auth : AuthApi) (serr : Option String) (ah : Option String) (db : DB) :
    HResp (List Donation) × DB :=
  match ah with
  | none => (HResp.err 401 unauthorizedMsg, db)
  | some h =>
    match auth (bearerToken h) with
    | none => (HResp.err 401 unauthorizedMsg, db)
    | some uid =>
      match serr with
      | some m => (HResp.err 500 m, db)
      | none =>
        (HResp.ok (sortDonationsDesc (db.donations.filter (fun d => d.donor_id == some uid))), db)

/-- Store operations issued by `POST /api/donations`, in order. -/
inductive Ev where
  | authGetUser : String → Ev
  | insertDonation : Donation → Ev
  | selectCampaign : Nat → Ev
  | updateCampaign : Nat → Int → Ev
deriving Repr, DecidableEq

/-- Request body of `POST /api/donations`. -/
structure DonationReqBody where
  campaignId : Nat
  amount : Int
  tipAmount : Option Int
  donorName : Option String
deriving Repr, DecidableEq

/-- Donor resolution of `POST /api/donations`: `donorId` stays null when no
`Authorization` header is present, and is `user?.id` — null again when the
identity provider rejects the token — when one is. -/
def resolvedDonor (auth : AuthApi) (ah : Option String) : Option Nat :=
  match ah with
  | none => none
  | some h => auth (bearerToken h)

/-- `.update(\x7b collected_amount: v \x7d).eq('id', cid)` on campaigns. -/
def setCollected (cs : List Campaign) (cid : Nat) (v : Int) : List Campaign :=
  cs.map (fun c => if c.id == cid then { c with collected_amount := v } else c)

/-- The donation row `POST /api/donations` inserts: the given amount,
`tipAmount || 0`, the given donor name, and the resolved donor id;
`now` is the store-assigned timestamp. -/
def donationRow (auth : AuthApi) (ah : Option String) (now : Nat) (b : DonationReqBody) :
    Donation :=
  { campaign_id := b.campaignId
    amount := b.amount
    tip_amount := b.tipAmount.getD 0
    donor_name := b.donorName
    donor_id := resolvedDonor auth ah
    created_at := now }

/-- The identity-provider call `POST /api/donations` makes before anything
else: present exactly when an `Authorization` header is present. -/
def donationAuthEvs (ah : Option String) : List Ev :=
  match ah with
  | none => []
  | some h => [Ev.authGetUser (bearerToken h)]

/-- `POST /api/donations`: resolve the donor (never a 401), insert the
donation row, then re-read the campaign total and write back total+amount.
`insertErr` injects an insert failure, `readFails`/`updateFails` inject
failures of the two ledger operations (whose errors the handler ignores);
`now` is the store-assigned timestamp.  Also returns the trace of store
operations attempted. -/
def postDonations (auth : AuthApi) (insertErr : Option String)
    (readFails updateFails : Bool) (now : Nat)
    (ah : Option String) (b : DonationReqBody) (db : DB) :
    HResp Donation × DB × List Ev :=
  let authEvs : List Ev := donationAuthEvs ah
  let row : Donation := donationRow auth ah now b
  match insertErr with
  | some msg => (HResp.err 500 msg, db, authEvs ++ [Ev.insertDonation row])
  | none =>
    let db1 : DB := { db with donations := db.donations ++ [row] }
    let evs1 : List Ev := authEvs ++ [Ev.insertDonation row, Ev.selectCampaign b.campaignId]
    if readFails then
      (HResp.ok row, db1, evs1)
    else
      match db1.campaigns.find? (fun c => c.id == b.campaignId) with
      | none => (HResp.ok row, db1, evs1)
      | some c =>
        let evs2 : List Ev := evs1 ++ [Ev.updateCampaign b.campaignId (c.collected_amount + b.amount)]
        if updateFails then
          (HResp.ok row, db1, evs2)
        else
          (HResp.ok row,
            { db1 with
              campaigns := setCollected db1.campaigns b.campaignId (c.collected_amount + b.amount) },
            evs2)

/-- `GET /api/reviews`: newest ten reviews, `.order('created_at',
\x7b ascending: false \x7d).limit(10)`. -/
def getReviews (serr : Option String) (db : DB) : HResp (List Review) × DB :=
  match serr with
  | some m => (HResp.err 500 m, db)
  | none => (HResp.ok ((sortReviewsDesc db.reviews).take 10), db)

/-- Request body of `POST /api/ngo-verifications` (the fields this model
tracks of the spread body). -/
structure NgoVerificationReqBody where
  org_name : String
deriving Repr, DecidableEq

/-- `POST /api/ngo-verifications`: 401 without a resolvable token, else
insert a verification request row for the caller. -/
def postNgoVerifications (auth : AuthApi) (serr : Option String) (newId : Nat) (now : Nat)
    (ah : Option String) (b : NgoVerificationReqBody) (db : DB) :
    HResp NgoVerification × DB :=
  match ah with
  | none => (HResp.err 401 unauthorizedMsg, db)
  | some h =>
    match auth (bearerToken h) with
    | none => (HResp.err 401 unauthorizedMsg, db)
    | some uid =>
      match serr with
      | some m => (HResp.err 500 m, db)
      | none =>
        let row : NgoVerification := {
          id := newId
          user_id := uid
          org_name := b.org_name
          verified := false
          requested_at := now }
        (HResp.ok row, { db with ngo_verifications := db.ngo_verifications ++ [row] })

/-- `.update(\x7b verified \x7d).eq('id', vid)` on ngo_verifications. -/
def setVerified (vs : List NgoVerification) (vid : Nat) (b : Bool) : List NgoVerification :=
  vs.map (fun v => if v.id == vid then { v with verified := b } else v)

/-- `.update(\x7b is_ngo: true \x7d).eq('id', uid)` on users. -/
def setIsNgo (us : List User) (uid : Nat) : List User :=
  us.map (fun u => if u.id == uid then { u with is_ngo := true } else u)

/-- `PATCH /api/admin/ngo-verifications/:id`: write `\x7b verified \x7d` to the
verification record (a failed update, or `.single()` matching no row, is a
500); then, only when `verified` is truthy, a second write promotes the
associated user's `is_ngo` flag to true. -/
def patchNgoVerification (updErr : Option String) (verified : Bool) (vid : Nat) (db : DB) :
    HResp NgoVerification × DB :=
  match updErr with
  | some m => (HResp.err 500 m, db)
  | none =>
    match db.ngo_verifications.find? (fun v => v.id == vid) with
    | none => (HResp.err 500 singleRowErrMsg, db)
    | some v0 =>
      let v1 : NgoVerification := { v0 with verified := verified }
      let db1 : DB := { db with ngo_verifications := setVerified db.ngo_verifications vid verified }
      if verified then
        (HResp.ok v1, { db1 with users := setIsNgo db1.users v1.user_id })
      else
        (HResp.ok v1, db1)

/-- The intended ledger invariant's right-hand side:
`sum(donations.amount where campaign_id matches)`. -/
def donationSum (db : DB) (cid : Nat) : Int :=
  ((db.donations.filter (fun d => d.campaign_id == cid)).map (fun d => d.amount)).sum

/-- The request carries no `Authorization` header, or carries one whose
token the identity provider rejects. -/
def authRejected (auth : AuthApi) (ah : Option String) : Prop :=
  match ah with
  | none => True
  | some h => auth (bearerToken h) = none

/-- Concrete fixtures for witnesses. -/
def authNone : AuthApi := fun _ => none

def authSeven : AuthApi := fun _ => some 7

def exUser : User := { id := 7, is_ngo := false }

def exCampaign : Campaign :=
  { id := 1
    title := "Help"
    created_by := 7
    unique_code := "TF-ABC123"
    collected_amount := 5
    verified := false
    created_at := 0 }

def exVerification : NgoVerification :=
  { id := 3, user_id := 7, org_name := "Org", verified := false, requested_at := 0 }

def exDB : DB :=
  { users := [exUser]
    campaigns := [exCampaign]
    donations := []
    reviews := []
    ngo_verifications := [exVerification] }

def exBody : DonationReqBody :=
  { campaignId := 1, amount := 10, tipAmount := none, donorName := none }

example : campaignCodeChars.length = 36 := by decide

example :
    generateUniqueCampaignCode (fun _ => ⟨0, by decide⟩) = ("TF-AAAAAA") := by decide

example :
    (postDonations authSeven none false false 2 none exBody exDB).2.1.campaigns =
      [{ exCampaign with collected_amount := 15 }] := by decide

example :
    (postDonations authSeven none false false 2 (some ("Bearer t")) exBody exDB).2.2 =
      [Ev.authGetUser ("t"), Ev.insertDonation
        { campaign_id := 1, amount := 10, tip_amount := 0, donor_name := none,
          donor_id := some 7, created_at := 2 },
       Ev.selectCampaign 1, Ev.updateCampaign 1 15] := by decide

/-! ## Helper lemmas -/

/-- Updating the collected amount of campaign `cid` rewrites the row that a
`find?` by id sees, leaving its other fields intact. -/
theorem find_setCollected (l : List Campaign) (cid : Nat) (v : Int) (c : Campaign)
    (h : l.find? (fun x => x.id == cid) = some c) :
    (setCollected l cid v).find? (fun x => x.id == cid)
      = some { c with collected_amount := v } := by
  induction l with
  | nil => simp [List.find?] at h
  | cons a l ih =>
    by_cases hac : (a.id == cid) = true
    · simp only [List.find?_cons, hac] at h
      injection h with h
      subst h
      simp only [setCollected, List.map_cons, List.find?_cons]
      simp [hac]
    · have hac2 : (a.id == cid) = false := by simpa using hac
      simp only [List.find?_cons, hac2] at h
      simp only [setCollected, List.map_cons, List.find?_cons]
      rw [if_neg hac]
      simp only [hac2]
      exact ih h

/-- On the success path (campaign found, every store call succeeds) the
donation handler returns the inserted row, appends it to `donations`,
bumps the campaign's collected amount, and emits the four-step trace. -/
theorem postDonations_success_eq (auth : AuthApi) (ah : Option String) (now : Nat)
    (b : DonationReqBody) (db : DB) (c : Campaign)
    (hfind : db.campaigns.find? (fun x => x.id == b.campaignId) = some c) :
    postDonations auth none false false now ah b db
      = (HResp.ok (donationRow auth ah now b),
         { db with
           donations := db.donations ++ [donationRow auth ah now b]
           campaigns := setCollected db.campaigns b.campaignId
             (c.collected_amount + b.amount) },
         donationAuthEvs ah
           ++ [Ev.insertDonation (donationRow auth ah now b),
               Ev.selectCampaign b.campaignId,
               Ev.updateCampaign b.campaignId (c.collected_amount + b.amount)]) := by
  simp [postDonations, hfind]

/-- Appending a donation row for campaign `cid` raises the matching-donation
sum by exactly that row's amount. -/
theorem donationSum_append (db : DB) (cid : Nat) (row : Donation) (cs : List Campaign)
    (hrow : row.campaign_id = cid) :
    donationSum { db with donations := db.donations ++ [row], campaigns := cs } cid
      = donationSum db cid + row.amount := by
  simp [donationSum, List.filter_append, hrow]

/-! ## Claim theorems -/

/-- C4: every string the campaign code generator returns is exactly 9
characters: the fixed prefix `TF-` followed by 6 characters drawn from
`[A-Z0-9]` (so it matches `^TF-[A-Z0-9]\x7b6\x7d$`); the generator consults no
existing records — it is a function of the six random draws alone. -/
theorem generateUniqueCampaignCode_format (r : Fin 6 → Fin 36) :
    (generateUniqueCampaignCode r).length = 9
    ∧ (generateUniqueCampaignCode r).toList.take 3 = ['T', 'F', '-']
    ∧ ((generateUniqueCampaignCode r).toList.drop 3).length = 6
    ∧ ∀ c ∈ (generateUniqueCampaignCode r).toList.drop 3, c ∈ campaignCodeChars := by
  have hdata : (generateUniqueCampaignCode r).toList
      = 'T' :: 'F' :: '-' :: List.ofFn (fun i => campaignCodeChars.getD (r i).val 'A') := by
    simp [generateUniqueCampaignCode, String.toList, String.data_append]
  refine ⟨?_, ?_, ?_, ?_⟩
  · have : (generateUniqueCampaignCode r).length
        = (generateUniqueCampaignCode r).toList.length := rfl
    rw [this, hdata]
    simp
  · rw [hdata]
    rfl
  · rw [hdata]
    simp
  · intro c hc
    rw [hdata] at hc
    simp only [List.drop_succ_cons, List.drop_zero] at hc
    obtain ⟨i, hi⟩ := (List.mem_ofFn _ _).1 hc
    have h36 : campaignCodeChars.length = 36 := by decide
    have hlt : (r i).val < campaignCodeChars.length := by
      rw [h36]
      exact (r i).isLt
    rw [← hi]
    show campaignCodeChars.getD (r i).val 'A' ∈ campaignCodeChars
    rw [List.getD_eq_getElem _ _ hlt]
    exact List.getElem_mem hlt

/-- Witness for C4 at a concrete random draw. -/
theorem generateUniqueCampaignCode_format_w :
    (generateUniqueCampaignCode (fun _ => ⟨2, by decide⟩)).length = 9
    ∧ 'C' ∈ campaignCodeChars :=
  ⟨(generateUniqueCampaignCode_format (fun _ => ⟨2, by decide⟩)).1,
   (generateUniqueCampaignCode_format (fun _ => ⟨2, by decide⟩)).2.2.2 'C' (by decide)⟩

/-- C1: when a donation is recorded against an existing campaign and every
store call succeeds (the single-writer, no-failure run), the campaign's
collected amount afterwards equals its value before plus the donation's
amount; consequently the intended invariant `collected_amount =
sum(donations.amount where campaign_id matches)` is preserved. -/
theorem donation_increments_ledger (auth : AuthApi) (ah : Option String) (now : Nat)
    (b : DonationReqBody) (db : DB) (c : Campaign)
    (hfind : db.campaigns.find? (fun x => x.id == b.campaignId) = some c) :
    ((postDonations auth none false false now ah b db).2.1.campaigns.find?
        (fun x => x.id == b.campaignId)
      = some { c with collected_amount := c.collected_amount + b.amount })
    ∧ donationSum (postDonations auth none false false now ah b db).2.1 b.campaignId
      = donationSum db b.campaignId + b.amount
    ∧ (c.collected_amount = donationSum db b.campaignId →
       c.collected_amount + b.amount
         = donationSum (postDonations auth none false false now ah b db).2.1 b.campaignId) := by
  rw [postDonations_success_eq auth ah now b db c hfind]
  refine ⟨?_, ?_, ?_⟩
  · exact find_setCollected db.campaigns b.campaignId (c.collected_amount + b.amount) c hfind
  · exact donationSum_append db b.campaignId (donationRow auth ah now b) _ rfl
  · intro hinv
    rw [donationSum_append db b.campaignId (donationRow auth ah now b) _ rfl, hinv]
    rfl

/-- Witness for C1: a concrete donation of 10 against a campaign holding 5. -/
theorem donation_increments_ledger_w :
    (postDonations authSeven none false false 2 none exBody exDB).2.1.campaigns.find?
        (fun x => x.id == exBody.campaignId)
      = some { exCampaign with collected_amount := exCampaign.collected_amount + exBody.amount } :=
  (donation_increments_ledger authSeven none 2 exBody exDB exCampaign (by decide)).1

/-- C2: on the all-success run the donation handler performs exactly, and in
this order: (1) one identity-provider call when and only when a bearer token
is present (the donor id is the resolved user, `none` when the header is
absent); (2) the insert of the donation row carrying the given amount, tip,
donor name and resolved donor id; (3) the re-read of the campaign's
collected total; (4) the write-back of that total plus the amount. -/
theorem postDonations_step_order (auth : AuthApi) (ah : Option String) (now : Nat)
    (b : DonationReqBody) (db : DB) (c : Campaign)
    (hfind : db.campaigns.find? (fun x => x.id == b.campaignId) = some c) :
    ((postDonations auth none false false now ah b db).2.2
      = (match ah with
         | none => []
         | some h => [Ev.authGetUser (bearerToken h)])
        ++ [Ev.insertDonation
              { campaign_id := b.campaignId
                amount := b.amount
                tip_amount := b.tipAmount.getD 0
                donor_name := b.donorName
                donor_id := resolvedDonor auth ah
                created_at := now },
            Ev.selectCampaign b.campaignId,
            Ev.updateCampaign b.campaignId (c.collected_amount + b.amount)])
    ∧ resolvedDonor auth none = none
    ∧ (∀ h, resolvedDonor auth (some h) = auth (bearerToken h)) := by
  refine ⟨?_, rfl, fun h => rfl⟩
  rw [postDonations_success_eq auth ah now b db c hfind]
  rfl

/-- Witness for C2 at a concrete request carrying a bearer token. -/
theorem postDonations_step_order_w :
    (postDonations authSeven none false false 2 (some ("Bearer t")) exBody exDB).2.2
      = (match some ("Bearer t") with
         | none => ([] : List Ev)
         | some h => [Ev.authGetUser (bearerToken h)])
        ++ [Ev.insertDonation
              { campaign_id := exBody.campaignId
                amount := exBody.amount
                tip_amount := exBody.tipAmount.getD 0
                donor_name := exBody.donorName
                donor_id := resolvedDonor authSeven (some ("Bearer t"))
                created_at := 2 },
            Ev.selectCampaign exBody.campaignId,
            Ev.updateCampaign exBody.campaignId (exCampaign.collected_amount + exBody.amount)] :=
  (postDonations_step_order authSeven (some ("Bearer t")) 2 exBody exDB exCampaign
    (by decide)).1

/-- C3: if the donation insert fails the handler responds 500 with the
store's message, leaves the store untouched and never attempts the ledger
update; if the insert succeeds but the campaign re-read (or the write-back)
fails, no compensating action is taken — the donation row remains, the
campaign ledger is unchanged, and the response still returns the donation. -/
theorem postDonations_failure_modes (auth : AuthApi) (msg : String)
    (readFails updateFails : Bool) (now : Nat) (ah : Option String)
    (b : DonationReqBody) (db : DB) :
    ((postDonations auth (some msg) readFails updateFails now ah b db).1
        = HResp.err 500 msg
      ∧ (postDonations auth (some msg) readFails updateFails now ah b db).2.1 = db
      ∧ ∀ cid v, Ev.updateCampaign cid v
          ∉ (postDonations auth (some msg) readFails updateFails now ah b db).2.2)
    ∧ ((postDonations auth none true updateFails now ah b db).1
        = HResp.ok (donationRow auth ah now b)
      ∧ donationRow auth ah now b
          ∈ (postDonations auth none true updateFails now ah b db).2.1.donations
      ∧ (postDonations auth none true updateFails now ah b db).2.1.campaigns
        = db.campaigns)
    ∧ ∀ c, db.campaigns.find? (fun x => x.id == b.campaignId) = some c →
        ((postDonations auth none false true now ah b db).1
          = HResp.ok (donationRow auth ah now b)
        ∧ donationRow auth ah now b
            ∈ (postDonations auth none false true now ah b db).2.1.donations
        ∧ (postDonations auth none false true now ah b db).2.1.campaigns
          = db.campaigns) := by
  refine ⟨⟨rfl, rfl, ?_⟩, ⟨rfl, ?_, rfl⟩, ?_⟩
  · intro cid v hmem
    cases ah with
    | none => simp [postDonations, donationAuthEvs] at hmem
    | some h => simp [postDonations, donationAuthEvs] at hmem
  · simp [postDonations]
  · intro c hc
    have he : postDonations auth none false true now ah b db
        = (HResp.ok (donationRow auth ah now b),
           { db with donations := db.donations ++ [donationRow auth ah now b] },
           donationAuthEvs ah
             ++ [Ev.insertDonation (donationRow auth ah now b),
                 Ev.selectCampaign b.campaignId,
                 Ev.updateCampaign b.campaignId (c.collected_amount + b.amount)]) := by
      simp [postDonations, hc]
    rw [he]
    exact ⟨rfl, by simp, rfl⟩

/-- Witness for C3: a failed insert surfaces the store message as a 500, and
a failed write-back leaves the ledger untouched. -/
theorem postDonations_failure_modes_w :
    (postDonations authSeven (some ("boom")) false false 2 none exBody exDB).1
      = HResp.err 500 ("boom")
    ∧ (postDonations authSeven none false true 2 none exBody exDB).2.1.campaigns
      = exDB.campaigns :=
  ⟨(postDonations_failure_modes authSeven ("boom") false false 2 none exBody exDB).1.1,
   ((postDonations_failure_modes authSeven ("boom") false true 2 none exBody exDB).2.2
      exCampaign (by decide)).2.2⟩

/-- C8: the donation endpoint never responds 401: with no Authorization
header, or with one whose token the identity provider rejects, the donor
reference resolves to `none`, the donation row is inserted anonymously, and
the handler proceeds exactly as in the headerless case. -/
theorem postDonations_never_401 (auth : AuthApi) (insertErr : Option String)
    (readFails updateFails : Bool) (now : Nat) (ah : Option String)
    (b : DonationReqBody) (db : DB) (tok : String)
    (hrej : auth (bearerToken tok) = none) :
    (∀ m, (postDonations auth insertErr readFails updateFails now ah b db).1
        ≠ HResp.err 401 m)
    ∧ resolvedDonor auth (some tok) = none
    ∧ (donationRow auth (some tok) now b).donor_id = none
    ∧ (postDonations auth insertErr readFails updateFails now (some tok) b db).1
        = (postDonations auth insertErr readFails updateFails now none b db).1
    ∧ (postDonations auth insertErr readFails updateFails now (some tok) b db).2.1
        = (postDonations auth insertErr readFails updateFails now none b db).2.1 := by
  have hrow : donationRow auth (some tok) now b = donationRow auth none now b := by
    simp [donationRow, resolvedDonor, hrej]
  refine ⟨?_, hrej, by simp [donationRow, resolvedDonor, hrej], ?_, ?_⟩
  · intro m
    cases insertErr with
    | some msg => simp [postDonations]
    | none =>
      cases readFails with
      | true => simp [postDonations]
      | false =>
        cases hf : db.campaigns.find? (fun c => c.id == b.campaignId) with
        | none => simp [postDonations, hf]
        | some c =>
          cases updateFails with
          | true => simp [postDonations, hf]
          | false => simp [postDonations, hf]
  · cases insertErr with
    | some msg => rfl
    | none =>
      cases readFails with
      | true => simp [postDonations, hrow]
      | false =>
        cases hf : db.campaigns.find? (fun c => c.id == b.campaignId) with
        | none => simp [postDonations, hf, hrow]
        | some c =>
          cases updateFails with
          | true => simp [postDonations, hf, hrow]
          | false => simp [postDonations, hf, hrow]
  · cases insertErr with
    | some msg => rfl
    | none =>
      cases readFails with
      | true => simp [postDonations, hrow]
      | false =>
        cases hf : db.campaigns.find? (fun c => c.id == b.campaignId) with
        | none => simp [postDonations, hf, hrow]
        | some c =>
          cases updateFails with
          | true => simp [postDonations, hf, hrow]
          | false => simp [postDonations, hf, hrow]

/-- Witness for C8: a rejected token still yields a non-401 response and an
anonymous donor. -/
theorem postDonations_never_401_w :
    (postDonations authNone none false false 2 (some ("Bearer t")) exBody exDB).1
        ≠ HResp.err 401 ("Unauthorized")
    ∧ resolvedDonor authNone (some ("Bearer t")) = none :=
  ⟨(postDonations_never_401 authNone none false false 2 (some ("Bearer t")) exBody exDB
      ("Bearer t") rfl).1 ("Unauthorized"),
   (postDonations_never_401 authNone none false false 2 (some ("Bearer t")) exBody exDB
      ("Bearer t") rfl).2.1⟩

/-- Every user in the list after the promoting write whose id matches the
target has the NGO flag set. -/
theorem setIsNgo_mem (us : List User) (uid : Nat) :
    ∀ u ∈ setIsNgo us uid, u.id = uid → u.is_ngo = true := by
  intro u hu
  simp only [setIsNgo, List.mem_map] at hu
  obtain ⟨u0, hu0, rfl⟩ := hu
  by_cases h0 : (u0.id == uid) = true
  · rw [if_pos h0]
    intro _
    rfl
  · rw [if_neg h0]
    intro hid
    exact absurd hid (by simpa using h0)

/-- The promoting write only ever flips `is_ngo` to `true`: every output
user is an input user with the same id and either an unchanged flag or a
flag set to `true`. -/
theorem setIsNgo_shape (us : List User) (uid : Nat) :
    ∀ u1 ∈ setIsNgo us uid,
      ∃ u0, u0 ∈ us ∧ u1.id = u0.id ∧ (u1.is_ngo = u0.is_ngo ∨ u1.is_ngo = true) := by
  intro u1 hu
  simp only [setIsNgo, List.mem_map] at hu
  obtain ⟨u0, hu0, rfl⟩ := hu
  by_cases h0 : (u0.id == uid) = true
  · rw [if_pos h0]
    exact ⟨u0, hu0, rfl, Or.inr rfl⟩
  · rw [if_neg h0]
    exact ⟨u0, hu0, rfl, Or.inl rfl⟩

/-- C5: when the verification-record update of
`PATCH /api/admin/ngo-verifications/:id` succeeds with `verified = true`,
the handler issues the second write, after which every user row carrying
the verification's `user_id` has `is_ngo = true`. -/
theorem approve_sets_user_ngo (vid : Nat) (db : DB) (v0 : NgoVerification)
    (hfind : db.ngo_verifications.find? (fun v => v.id == vid) = some v0) :
    (patchNgoVerification none true vid db).1 = HResp.ok { v0 with verified := true }
    ∧ ∀ u ∈ (patchNgoVerification none true vid db).2.users,
        u.id = v0.user_id → u.is_ngo = true := by
  have he : patchNgoVerification none true vid db
      = (HResp.ok { v0 with verified := true },
         { db with
           ngo_verifications := setVerified db.ngo_verifications vid true
           users := setIsNgo db.users v0.user_id }) := by
    simp [patchNgoVerification, hfind]
  rw [he]
  exact ⟨rfl, setIsNgo_mem db.users v0.user_id⟩

/-- Witness for C5 on the concrete store: approving verification 3
promotes user 7. -/
theorem approve_sets_user_ngo_w :
    (patchNgoVerification none true 3 exDB).1
        = HResp.ok { exVerification with verified := true }
    ∧ ({ id := 7, is_ngo := true } : User).is_ngo = true :=
  ⟨(approve_sets_user_ngo 3 exDB exVerification (by decide)).1,
   (approve_sets_user_ngo 3 exDB exVerification (by decide)).2
      { id := 7, is_ngo := true } (by decide) rfl⟩

/-- C9: rejecting a verification (`verified = false`) leaves the `users`
table — in particular every `is_ngo` flag — unchanged, whatever the store
outcome; and in all cases the handler only ever promotes `is_ngo` to
`true`, never resets it. -/
theorem reject_leaves_users_unchanged (updErr : Option String) (vid : Nat) (db : DB) :
    (patchNgoVerification updErr false vid db).2.users = db.users
    ∧ ∀ verified : Bool, ∀ u1 ∈ (patchNgoVerification updErr verified vid db).2.users,
        ∃ u0, u0 ∈ db.users ∧ u1.id = u0.id
          ∧ (u1.is_ngo = u0.is_ngo ∨ u1.is_ngo = true) := by
  constructor
  · cases updErr with
    | some m => rfl
    | none =>
      cases hf : db.ngo_verifications.find? (fun v => v.id == vid) with
      | none => simp [patchNgoVerification, hf]
      | some v0 => simp [patchNgoVerification, hf]
  · intro verified u1 hu
    cases updErr with
    | some m => exact ⟨u1, hu, rfl, Or.inl rfl⟩
    | none =>
      cases hf : db.ngo_verifications.find? (fun v => v.id == vid) with
      | none =>
        simp only [patchNgoVerification, hf] at hu
        exact ⟨u1, hu, rfl, Or.inl rfl⟩
      | some v0 =>
        cases verified with
        | false =>
          simp only [patchNgoVerification, hf] at hu
          exact ⟨u1, hu, rfl, Or.inl rfl⟩
        | true =>
          simp only [patchNgoVerification, hf] at hu
          exact setIsNgo_shape db.users v0.user_id u1 hu

/-- Witness for C9: rejecting verification 3 leaves user 7 untouched. -/
theorem reject_leaves_users_unchanged_w :
    (patchNgoVerification none false 3 exDB).2.users = exDB.users
    ∧ ∃ u0, u0 ∈ exDB.users ∧ exUser.id = u0.id
        ∧ (exUser.is_ngo = u0.is_ngo ∨ exUser.is_ngo = true) :=
  ⟨(reject_leaves_users_unchanged none 3 exDB).1,
   (reject_leaves_users_unchanged none 3 exDB).2 false exUser (by decide)⟩

/-- C6: a request to any of the protected routes (`GET /api/campaigns/my`,
`GET /api/donations/my`, `POST /api/campaigns`, `GET /api/auth/user`,
`POST /api/ngo-verifications`) that carries no Authorization header, or a
token the identity provider rejects, receives a 401 and leaves the store
untouched. -/
theorem protected_routes_401 (auth : AuthApi) (ah : Option String)
    (serr : Option String) (r : Fin 6 → Fin 36) (newId now : Nat)
    (cb : CampaignReqBody) (nb : NgoVerificationReqBody) (db : DB)
    (hrej : authRejected auth ah) :
    getCampaignsMy auth serr ah db = (HResp.err 401 unauthorizedMsg, db)
    ∧ getDonationsMy auth serr ah db = (HResp.err 401 unauthorizedMsg, db)
    ∧ postCampaigns auth serr r newId now ah cb db = (HResp.err 401 unauthorizedMsg, db)
    ∧ getAuthUser auth serr ah db = (HResp.err 401 unauthorizedMsg, db)
    ∧ postNgoVerifications auth serr newId now ah nb db
        = (HResp.err 401 unauthorizedMsg, db) := by
  cases ah with
  | none => exact ⟨rfl, rfl, rfl, rfl, rfl⟩
  | some h =>
    have hr : auth (bearerToken h) = none := hrej
    refine ⟨?_, ?_, ?_, ?_, ?_⟩ <;>
      simp [getCampaignsMy, getDonationsMy, postCampaigns, getAuthUser,
        postNgoVerifications, hr]

/-- Witness for C6: a rejected bearer token yields a 401 on
`GET /api/campaigns/my` with the store unchanged. -/
theorem protected_routes_401_w :
    getCampaignsMy authNone none (some ("Bearer t")) exDB
      = (HResp.err 401 unauthorizedMsg, exDB) :=
  (protected_routes_401 authNone (some ("Bearer t")) none (fun _ => ⟨0, by decide⟩) 9 2
    { title := "T", cause := none, hospitalEmail := none, isTemporary := false }
    { org_name := "Org" } exDB rfl).1

/-- C7 counterexample: on `GET /api/campaigns/:id` a store error does NOT
yield a 500 carrying the store's message — the handler's single error branch
maps every error to a 404 `'Campaign not found'`. -/
theorem getCampaignById_store_error_is_404 :
    (getCampaignById (some ("connection reset")) 1 exDB).1
        = HResp.err 404 campaignNotFoundMsg
    ∧ (getCampaignById (some ("connection reset")) 1 exDB).1
        ≠ HResp.err 500 ("connection reset") :=
  ⟨rfl, by decide⟩

/-- C7 amended: the uniform pattern holds with one exception — list
endpoints such as `GET /api/campaigns` surface a store error as a 500 with
the store's message, a missing/invalid token yields a 401, and a missing
resource yields a 404, but on `GET /api/campaigns/:id` every error (store
failure and nonexistent id alike) yields the 404 `'Campaign not found'`;
the store's message is never surfaced there. -/
theorem uniform_error_pattern (auth : AuthApi) (ah : Option String)
    (m : String) (cid : Nat) (db : DB)
    (hrej : authRejected auth ah) :
    (getCampaigns (some m) db).1 = HResp.err 500 m
    ∧ (getCampaignsMy auth (some m) ah db).1 = HResp.err 401 unauthorizedMsg
    ∧ (getCampaignById (some m) cid db).1 = HResp.err 404 campaignNotFoundMsg
    ∧ (db.campaigns.find? (fun c => c.id == cid) = none →
        (getCampaignById none cid db).1 = HResp.err 404 campaignNotFoundMsg) := by
  refine ⟨rfl, ?_, rfl, ?_⟩
  · cases ah with
    | none => rfl
    | some h =>
      have hr : auth (bearerToken h) = none := hrej
      simp [getCampaignsMy, hr]
  · intro hf
    simp [getCampaignById, hf]

/-- Witness for C7's amended statement at concrete inputs. -/
theorem uniform_error_pattern_w :
    (getCampaigns (some ("boom")) exDB).1 = HResp.err 500 ("boom")
    ∧ (getCampaignById none 999 exDB).1 = HResp.err 404 campaignNotFoundMsg :=
  ⟨(uniform_error_pattern authNone none ("boom") 999 exDB trivial).1,
   (uniform_error_pattern authNone none ("boom") 999 exDB trivial).2.2.2 (by decide)⟩

/-- C10: `GET /api/reviews` returns at most 10 reviews, each drawn from the
store, ordered by creation time descending, however many exist. -/
theorem getReviews_at_most_ten (db : DB) :
    ∃ l, (getReviews none db).1 = HResp.ok l
      ∧ l.length ≤ 10
      ∧ (∀ rv ∈ l, rv ∈ db.reviews)
      ∧ l.Pairwise (fun a b => b.created_at ≤ a.created_at) := by
  refine ⟨(sortReviewsDesc db.reviews).take 10, rfl, ?_, ?_, ?_⟩
  · simp [List.length_take]
  · intro rv hrv
    have h1 : rv ∈ sortReviewsDesc db.reviews := List.mem_of_mem_take hrv
    simpa [sortReviewsDesc] using h1
  · have hs : (sortReviewsDesc db.reviews).Pairwise
        (fun a b => decide (b.created_at ≤ a.created_at) = true) := by
      simp only [sortReviewsDesc]
      apply List.sorted_mergeSort
      · intro a b c hab hbc
        simp only [decide_eq_true_eq] at hab hbc ⊢
        exact le_trans hbc hab
      · intro a b
        rcases Nat.le_total a.created_at b.created_at with h | h <;> simp [h]
    have h2 := hs.sublist (List.take_sublist 10 (sortReviewsDesc db.reviews))
    exact h2.imp (fun hab => by simpa using hab)

/-- Witness for C10 on a concrete store. -/
theorem getReviews_at_most_ten_w :
    ∃ l, (getReviews none exDB).1 = HResp.ok l
      ∧ l.length ≤ 10
      ∧ (∀ rv ∈ l, rv ∈ exDB.reviews)
      ∧ l.Pairwise (fun a b => b.created_at ≤ a.created_at) :=
  getReviews_at_most_ten exDB
